import Mathlib

/-!
Verification of the exit-handler save/restore utility
(`src/src/sage/cpython/atexit.pyx`, Python 3 branch).

The live registry of the runtime's atexit module is modelled as the ordered
callback array held in the module's internal state (`atexit_callbacks` with
`ncallbacks` entries).  Callables and argument values are abstracted as
natural-number identifiers; a keyword mapping is a list of string/value
pairs.  The raw array entry keeps the possibly-null kwargs pointer
(`Option`), which `_get_exithandlers` normalises to an empty mapping.
Whether the internal state block itself is present is modelled with an
outer `Option`.
-/

namespace SageAtexit

/-- One entry of the atexit module's internal callback array
(`atexit_callback`): function, positional-argument tuple, and a keyword
mapping that may be a null pointer (`none`). -/
structure RawCallback where
  func : Nat
  args : List Nat
  kwargs : Option (List (String × Nat))
deriving DecidableEq, Repr

/-- The callback array of the atexit module state, in registration order. -/
abbrev AtexitState := List RawCallback

/-- An exit handler as seen through `_get_exithandlers`: a
`(func, args, kwargs)` triple whose keyword mapping is always an actual
mapping. -/
structure Callback where
  func : Nat
  args : List Nat
  kwargs : List (String × Nat)
deriving DecidableEq, Repr

/-- One entry built by the loop of `_get_exithandlers`:
`kwargs = <object>callback.kwargs` when the pointer is non-null, else `{}`. -/
def normCallback (cb : RawCallback) : Callback :=
  { func := cb.func, args := cb.args, kwargs := cb.kwargs.getD [] }

/-- `_get_exithandlers` (atexit.pyx lines 191-215, Python 3 branch):
reads the atexit module state via `PyModule_GetState`; raises
`RuntimeError("atexit module state missing or corrupt")` when the state
block is null, otherwise returns the list of registered handlers with a
null kwargs pointer normalised to `{}`.  The loop only reads the state, so
the second component (the state after the call) is the state unchanged. -/
def _get_exithandlers (state : Option AtexitState) :
    Except String (List Callback) × Option AtexitState :=
  match state with
  | none => (Except.error "atexit module state missing or corrupt", none)
  | some st => (Except.ok (st.map normCallback), some st)

/-- The list `_get_exithandlers` builds from a present state. -/
def readAll (st : AtexitState) : List Callback :=
  st.map normCallback

/-- Modelled from the spec: the host runtime's "register a new callback"
primitive (`atexit.register`, spec section 6), which is not part of this
repository.  It appends one entry to the callback array in registration
order; a call made with no keyword arguments stores a null kwargs
pointer. -/
def atexit_register (st : AtexitState) (func : Nat) (args : List Nat)
    (kwargs : List (String × Nat)) : AtexitState :=
  st ++ [{ func := func, args := args,
           kwargs := if kwargs.isEmpty then none else some kwargs }]

/-- Modelled from the spec: the host runtime's "empty the registry without
running anything" primitive (`atexit._clear`, spec section 6), which is not
part of this repository. -/
def atexit_clear (_ : AtexitState) : AtexitState := []

/-- `_clear_exithandlers` (atexit.pyx lines 232-234): calls
`atexit._clear()`. -/
def _clear_exithandlers (st : AtexitState) : AtexitState :=
  atexit_clear st

/-- `_set_exithandlers` (atexit.pyx lines 217-229): clears the registry
with `atexit._clear()`, then re-registers every handler with
`atexit.register(callback[0], *callback[1], **callback[2])`. -/
def _set_exithandlers (st : AtexitState) (exithandlers : List Callback) :
    AtexitState :=
  exithandlers.foldl
    (fun acc cb => atexit_register acc cb.func cb.args cb.kwargs)
    (atexit_clear st)

/-- Modelled from the spec: the host runtime's atomic "run all currently
registered callbacks and then empty the registry" primitive
(`atexit._run_exitfuncs`, spec section 6), which is not part of this
repository.  The invocation order — most recently registered first — is
pinned by the repository's own doctests (atexit.pyx lines 78-88, where the
handler registered second prints first).  Every callback is invoked, the
registry is emptied, and the error of the last failing callback, if any,
propagates to the caller (spec section 7: a callback failure "propagates to
the caller").  `raises f` says whether invoking callable `f` fails.
Returns the invocation trace (handlers with their stored arguments, in
invocation order), the registry contents after the call, and the
propagated error. -/
def atexit_run_exitfuncs (raises : Nat → Bool) (st : AtexitState) :
    List Callback × AtexitState × Option Nat :=
  ((st.reverse).map normCallback, [],
   (((st.reverse).filter fun cb => raises cb.func).getLast?).map
     RawCallback.func)

/-- The fields of the `restore_atexit` context manager
(`cdef list _exithandlers; cdef bint _clear, _run`).  `exithandlers` holds
the snapshot once `__enter__` has run; `__init__` sets it to `None`, which
we render as `[]` since `__enter__` always overwrites it before use. -/
structure restore_atexit where
  run : Bool
  clear : Bool
  exithandlers : List Callback
deriving DecidableEq, Repr

/-- `restore_atexit.__init__(self, *, run=False, clear=None)`
(atexit.pyx lines 128-132): `self._clear = self._run = run`, then
`if clear is not None: self._clear = clear`. -/
def restore_atexit.mkGuard (run : Bool) (clear : Option Bool) :
    restore_atexit :=
  { run := run, clear := clear.getD run, exithandlers := [] }

/-- `restore_atexit.__enter__` (atexit.pyx lines 134-139):
`self._exithandlers = _get_exithandlers()`, then
`if self._clear: _clear_exithandlers()`.  Returns the updated guard and
the registry state after entry. -/
def guardEnter (g : restore_atexit) (st : AtexitState) :
    restore_atexit × AtexitState :=
  ({ g with exithandlers := readAll st },
   if g.clear then _clear_exithandlers st else st)

/-- `restore_atexit.__exit__(self, *exc)` (atexit.pyx lines 141-144):
`if self._run: atexit._run_exitfuncs()`, then
`_set_exithandlers(self._exithandlers)`.  There is no try/finally: when
`_run_exitfuncs` raises, `__exit__` aborts before the restore (the branch
where the run result's error is present).  Result: invocation trace,
resulting registry, the error raised by `__exit__` itself if any, and the
truthiness of `__exit__`'s return value (the method has no return
statement, so it returns `None`, which is falsy). -/
def guardExit (raises : Nat → Bool) (g : restore_atexit) (st : AtexitState) :
    List Callback × AtexitState × Option Nat × Bool :=
  if g.run then
    let r := atexit_run_exitfuncs raises st
    if r.2.2.isSome then
      (r.1, r.2.1, r.2.2, false)
    else
      (r.1, _set_exithandlers r.2.1 g.exithandlers, none, false)
  else
    ([], _set_exithandlers st g.exithandlers, none, false)

/-- An exception observable outside the guarded scope: either an error
propagated out of `atexit._run_exitfuncs` by a failing callback, or an
exception raised by the scope body itself. -/
inductive Exc where
  | callbackError (func : Nat)
  | bodyError (u : Nat)
deriving DecidableEq, Repr

/-- One registry operation performed by user code inside the guard's
scope: a registration or a clear. -/
inductive AtexitOp where
  | register (func : Nat) (args : List Nat) (kwargs : List (String × Nat))
  | clearAll
deriving DecidableEq, Repr

/-- Effect of one in-scope operation on the registry. -/
def applyOp (st : AtexitState) : AtexitOp → AtexitState
  | AtexitOp.register f a k => atexit_register st f a k
  | AtexitOp.clearAll => _clear_exithandlers st

/-- Effect of a sequence of in-scope operations on the registry. -/
def applyOps (st : AtexitState) (ops : List AtexitOp) : AtexitState :=
  ops.foldl applyOp st

/-- The exception escaping a `with` block, per Python semantics: an error
raised by `__exit__` itself replaces the body's error; otherwise the
body's error is suppressed only when `__exit__` returned a truthy value. -/
def escapedExc (exitErr : Option Nat) (suppress : Bool)
    (bodyExc : Option Nat) : Option Exc :=
  match exitErr with
  | some e => some (Exc.callbackError e)
  | none => if suppress then none else bodyExc.map Exc.bodyError

/-- Execution of `with restore_atexit(run=run, clear=clear): body` on
registry `st`, where the body performs `ops` and then raises `bodyExc` if
given.  `__exit__` runs on every exit path of the scope.  Result: final
registry, callback-invocation trace, and the exception escaping the
`with` block. -/
def withGuard (raises : Nat → Bool) (run : Bool) (clear : Option Bool)
    (ops : List AtexitOp) (bodyExc : Option Nat) (st : AtexitState) :
    AtexitState × List Callback × Option Exc :=
  let p := guardEnter (restore_atexit.mkGuard run clear) st
  let st2 := applyOps p.2 ops
  let r := guardExit raises p.1 st2
  (r.2.1, r.1, escapedExc r.2.2.1 r.2.2.2 bodyExc)

/-- The nesting scenario of the spec (section 8) and of the doctests:
handlers `a` and `b` registered before any guard; enter guard `G1`
(default configuration); register `c`; enter guard `G2` with
`clear=True`; then exit `G2` and exit `G1`.  No callback is run
(`run=False` on both guards), so the failure behaviour of callables is
irrelevant.  Returns the registry contents inside `G2`'s scope, after
exiting `G2`, and after exiting `G1`. -/
def nestedScenario (a b c : Callback) :
    AtexitState × AtexitState × AtexitState :=
  let st0 := atexit_register
    (atexit_register [] a.func a.args a.kwargs) b.func b.args b.kwargs
  let p1 := guardEnter (restore_atexit.mkGuard false none) st0
  let st1 := atexit_register p1.2 c.func c.args c.kwargs
  let p2 := guardEnter (restore_atexit.mkGuard false (some true)) st1
  let inside := p2.2
  let afterG2 := (guardExit (fun _ => false) p2.1 inside).2.1
  let afterG1 := (guardExit (fun _ => false) p1.1 afterG2).2.1
  (inside, afterG2, afterG1)

/-! ### Helper lemmas -/

/-- Reading the empty registry yields the empty handler list. -/
lemma readAll_nil : readAll [] = [] := rfl

/-- Registering a handler and reading back shows exactly the handler's
function, arguments and keyword mapping appended at the end: the null
kwargs pointer stored for an empty mapping is normalised back to `{}`. -/
lemma readAll_register (st : AtexitState) (f : Nat) (a : List Nat)
    (k : List (String × Nat)) :
    readAll (atexit_register st f a k) = readAll st ++ [⟨f, a, k⟩] := by
  cases k <;> simp [readAll, atexit_register, normCallback]

/-- Re-registering a list of handlers on top of any accumulator appends
exactly that list, as observed through `readAll`. -/
lemma readAll_reregister (hs : List Callback) :
    ∀ acc : AtexitState,
      readAll (hs.foldl
        (fun acc2 cb => atexit_register acc2 cb.func cb.args cb.kwargs) acc)
        = readAll acc ++ hs := by
  induction hs with
  | nil => intro acc; simp
  | cons cb tl ih =>
      intro acc
      simp [List.foldl_cons, ih, readAll_register]

/-- `_set_exithandlers` is a total replacement: reading back afterwards
yields exactly the list that was set. -/
lemma readAll_set (st : AtexitState) (hs : List Callback) :
    readAll (_set_exithandlers st hs) = hs := by
  unfold _set_exithandlers
  rw [readAll_reregister]
  simp [atexit_clear, readAll]

/-- The run-all primitive empties the registry. -/
lemma run_exitfuncs_state (raises : Nat → Bool) (st : AtexitState) :
    (atexit_run_exitfuncs raises st).2.1 = [] := rfl

/-- The run-all primitive invokes the registered handlers in reverse
registration order, with their stored arguments. -/
lemma run_exitfuncs_trace (raises : Nat → Bool) (st : AtexitState) :
    (atexit_run_exitfuncs raises st).1 = (readAll st).reverse := by
  simp [atexit_run_exitfuncs, readAll]

/-- `__exit__` never returns a truthy value (its return value is `None`). -/
lemma guardExit_suppress (raises : Nat → Bool) (g : restore_atexit)
    (st : AtexitState) : (guardExit raises g st).2.2.2 = false := by
  by_cases hrun : g.run
  · by_cases hexc : (atexit_run_exitfuncs raises st).2.2.isSome <;>
      simp [guardExit, hrun, hexc]
  · simp [guardExit, hrun]

/-- When `__exit__` completes without raising, the registry has been
restored to the guard's snapshot. -/
lemma guardExit_restore (raises : Nat → Bool) (g : restore_atexit)
    (st : AtexitState)
    (h : (guardExit raises g st).2.2.1 = none) :
    readAll (guardExit raises g st).2.1 = g.exithandlers := by
  by_cases hrun : g.run
  · by_cases hexc : (atexit_run_exitfuncs raises st).2.2.isSome
    · exfalso
      simp [guardExit, hrun, hexc] at h
      rw [h] at hexc
      simp at hexc
    · simp [guardExit, hrun, hexc, readAll_set]
  · simp [guardExit, hrun, readAll_set]

/-- When `__exit__` raises (a callback failed during `_run_exitfuncs`),
the restore step is skipped and the registry is left as the run-and-clear
primitive left it: empty. -/
lemma guardExit_on_error (raises : Nat → Bool) (g : restore_atexit)
    (st : AtexitState)
    (h : (guardExit raises g st).2.2.1 ≠ none) :
    (guardExit raises g st).2.1 = [] := by
  by_cases hrun : g.run
  · by_cases hexc : (atexit_run_exitfuncs raises st).2.2.isSome
    · simp [guardExit, hrun, hexc, run_exitfuncs_state]
    · exfalso; apply h; simp [guardExit, hrun, hexc]
  · exfalso; apply h; simp [guardExit, hrun]

/-- The snapshot taken at entry is the read-back of the registry at entry,
and the registry after entry is empty when clearing was requested and
untouched otherwise. -/
lemma guardEnter_eq (g : restore_atexit) (st : AtexitState) :
    guardEnter g st =
      ({ g with exithandlers := readAll st },
       if g.clear then [] else st) := rfl

/-- The exception escaping the `with` block is `none` exactly when
`__exit__` did not raise and the body did not raise (since `__exit__`
never suppresses). -/
lemma escapedExc_none (exitErr : Option Nat) (bodyExc : Option Nat) :
    escapedExc exitErr false bodyExc = none ↔
      exitErr = none ∧ bodyExc = none := by
  cases exitErr <;> cases bodyExc <;> simp [escapedExc]

/-- The error raised by `__exit__` itself is the error of the run step
when `_run` was set, and nothing otherwise. -/
lemma guardExit_err (raises : Nat → Bool) (g : restore_atexit)
    (st : AtexitState) :
    (guardExit raises g st).2.2.1 =
      if g.run then (atexit_run_exitfuncs raises st).2.2 else none := by
  by_cases hrun : g.run
  · by_cases hexc : (atexit_run_exitfuncs raises st).2.2.isSome
    · simp [guardExit, hrun, hexc]
    · rw [Option.not_isSome_iff_eq_none] at hexc
      simp [guardExit, hrun, hexc]
  · simp [guardExit, hrun]

/-- When no callable fails, the run-all primitive propagates no error. -/
lemma run_exitfuncs_no_error (raises : Nat → Bool) (st : AtexitState)
    (h : ∀ f, raises f = false) :
    (atexit_run_exitfuncs raises st).2.2 = none := by
  simp [atexit_run_exitfuncs, h]

/-- As long as no escaped exception is a callback error, `__exit__` ran its
restore step, so reading the registry back after the `with` block yields
the entry-time snapshot. -/
lemma withGuard_none_restore (raises : Nat → Bool) (run : Bool)
    (clear : Option Bool) (ops : List AtexitOp) (bodyExc : Option Nat)
    (st : AtexitState)
    (h : ∀ e, (withGuard raises run clear ops bodyExc st).2.2 ≠
        some (Exc.callbackError e)) :
    readAll (withGuard raises run clear ops bodyExc st).1 = readAll st := by
  simp only [withGuard] at h ⊢
  have hexit : (guardExit raises
      (guardEnter (restore_atexit.mkGuard run clear) st).1
      (applyOps (guardEnter (restore_atexit.mkGuard run clear) st).2
        ops)).2.2.1 = none := by
    cases hx : (guardExit raises
        (guardEnter (restore_atexit.mkGuard run clear) st).1
        (applyOps (guardEnter (restore_atexit.mkGuard run clear) st).2
          ops)).2.2.1 with
    | none => rfl
    | some e =>
        exfalso
        apply h e
        rw [hx]
        simp [escapedExc]
  rw [guardExit_restore raises _ _ hexit]
  rfl

/-- The invocation trace of a guarded scope: nothing when `_run` is unset;
with `_run` set, the handlers present at scope exit (after the optional
clear at entry and the in-scope operations), in reverse registration
order. -/
lemma withGuard_trace (raises : Nat → Bool) (run : Bool)
    (clear : Option Bool) (ops : List AtexitOp) (bodyExc : Option Nat)
    (st : AtexitState) :
    (withGuard raises run clear ops bodyExc st).2.1 =
      if run then
        (readAll (applyOps (if clear.getD run then [] else st) ops)).reverse
      else [] := by
  by_cases hrun : run
  · simp only [withGuard, guardEnter, guardExit, restore_atexit.mkGuard,
      _clear_exithandlers, atexit_clear, hrun, run_exitfuncs_trace,
      if_true]
    split <;> split <;> rfl
  · simp [withGuard, guardEnter, guardExit, restore_atexit.mkGuard, hrun]

/-! ### Claims -/

/-- Claim C1: for every guard configuration (any values of `run` and
`clear`) and every sequence of registrations and clears performed inside
the guard's scope, when the scope exits (no exception propagating out of
the `with` block) the live registry's contents equal exactly the snapshot
taken at scope entry, in the same order. -/
theorem guard_restores_snapshot (raises : Nat → Bool) (run : Bool)
    (clear : Option Bool) (ops : List AtexitOp) (st : AtexitState)
    (h : (withGuard raises run clear ops none st).2.2 = none) :
    readAll (withGuard raises run clear ops none st).1 = readAll st := by
  apply withGuard_none_restore
  intro e
  rw [h]
  simp

/-- Witness for C1: a run=True guard (default clear) over a one-handler
registry, with a register, a clear and another register inside the scope,
exits cleanly and the registry reads back as the entry snapshot. -/
theorem guard_restores_snapshot_witness :
    (withGuard (fun _ => false) true none
        [AtexitOp.register 1 [2] [], AtexitOp.clearAll,
         AtexitOp.register 3 [] []] none
        [{ func := 0, args := [9], kwargs := some [("c", 3)] }]).2.2
      = none ∧
    readAll (withGuard (fun _ => false) true none
        [AtexitOp.register 1 [2] [], AtexitOp.clearAll,
         AtexitOp.register 3 [] []] none
        [{ func := 0, args := [9], kwargs := some [("c", 3)] }]).1
      = readAll [{ func := 0, args := [9], kwargs := some [("c", 3)] }] :=
  ⟨by decide,
   guard_restores_snapshot (fun _ => false) true none _ _ (by decide)⟩

/-- Claim C2 counterexample: a run=True guard over a registry holding one
callback whose invocation fails.  The callback error escapes the block and
the registry after exit is empty, not equal to the entry snapshot: the
restore step did not execute on this failure exit path (there is no
try/finally in `__exit__`). -/
theorem release_restore_on_failure_cex :
    (withGuard (fun _ => true) true (some false) [] none
        [{ func := 0, args := [], kwargs := none }]).2.2
      = some (Exc.callbackError 0) ∧
    readAll (withGuard (fun _ => true) true (some false) [] none
        [{ func := 0, args := [], kwargs := none }]).1
      ≠ readAll [{ func := 0, args := [], kwargs := none }] := by
  decide

/-- Claim C2 amended: the restore of the entry-time snapshot executes on
every exit path of `release()` on which the run step does not raise; when
`run=True` and an invoked callback raises, the error propagates and
`release()` aborts before the restore, leaving the registry as the
runtime's run-and-clear primitive left it: empty. -/
theorem release_restore_paths (raises : Nat → Bool) (run : Bool)
    (clear : Option Bool) (ops : List AtexitOp) (st : AtexitState) :
    ((withGuard raises run clear ops none st).2.2 = none →
      readAll (withGuard raises run clear ops none st).1 = readAll st) ∧
    ((withGuard raises run clear ops none st).2.2 ≠ none →
      (withGuard raises run clear ops none st).1 = []) := by
  constructor
  · intro h
    apply withGuard_none_restore
    intro e
    rw [h]
    simp
  · intro h
    simp only [withGuard] at h ⊢
    rw [guardExit_suppress] at h
    apply guardExit_on_error
    intro hx
    apply h
    rw [hx]
    simp [escapedExc]

/-- Witness for C2 (amended): on a clean run=True exit over a one-handler
registry, the registry reads back as the snapshot. -/
theorem release_restore_paths_witness :
    readAll (withGuard (fun _ => false) true (some false) [] none
        [{ func := 0, args := [], kwargs := none }]).1
      = readAll [{ func := 0, args := [], kwargs := none }] :=
  (release_restore_paths (fun _ => false) true (some false) []
      [{ func := 0, args := [], kwargs := none }]).1 (by decide)

/-- Claim C3 counterexample: with the two pre-scope handlers of the
repository's doctest (`handler(1, 2, c=3)` registered first,
`handler(4, 5, d=6)` second), a guard with `run=True, clear=False`
invokes them in reverse registration order, so the invocation trace is
not the registration-order handler list. -/
theorem run_order_cex :
    (withGuard (fun _ => false) true (some false) [] none
        [{ func := 0, args := [1, 2], kwargs := some [("c", 3)] },
         { func := 0, args := [4, 5], kwargs := some [("d", 6)] }]).2.1
      ≠ readAll
        [{ func := 0, args := [1, 2], kwargs := some [("c", 3)] },
         { func := 0, args := [4, 5], kwargs := some [("d", 6)] }] := by
  decide

/-- Claim C3 amended: when a guard with `run=True` exits its scope, every
callback then present in the live registry is invoked, each with its
stored positional and keyword arguments, in reverse registration order
(most recently registered first, as the repository's doctests show), and
this happens immediately before the snapshot is restored: on a clean exit
the registry reads back as the entry snapshot. -/
theorem run_invokes_all_lifo (raises : Nat → Bool) (clear : Option Bool)
    (ops : List AtexitOp) (st : AtexitState) :
    (withGuard raises true clear ops none st).2.1 =
      (readAll (applyOps (if clear.getD true then [] else st) ops)).reverse ∧
    ((withGuard raises true clear ops none st).2.2 = none →
      readAll (withGuard raises true clear ops none st).1 = readAll st) := by
  constructor
  · simpa using withGuard_trace raises true clear ops none st
  · intro h
    apply withGuard_none_restore
    intro e
    rw [h]
    simp

/-- Witness for C3 (amended): the restore conjunct applied to a concrete
clean run=True exit. -/
theorem run_invokes_all_lifo_witness :
    readAll (withGuard (fun _ => false) true (some false) [] none
        [{ func := 0, args := [1, 2], kwargs := some [("c", 3)] }]).1
      = readAll [{ func := 0, args := [1, 2], kwargs := some [("c", 3)] }] :=
  (run_invokes_all_lifo (fun _ => false) (some false) []
      [{ func := 0, args := [1, 2], kwargs := some [("c", 3)] }]).2
    (by decide)

/-- Claim C4: `clear` defaults to the value of `run`; a guard built with
`run=True` and no explicit `clear` empties the registry after the entry
snapshot, so a callback registered during the scope is run exactly once at
scope exit (it is the whole invocation trace), the scope exits cleanly,
and the registry reverts to the pre-scope contents, leaving that callback
unregistered. -/
theorem clear_defaults_to_run (raises : Nat → Bool) (runFlag : Bool)
    (st : AtexitState) (f : Nat) (a : List Nat) (k : List (String × Nat))
    (h : raises f = false) :
    (restore_atexit.mkGuard runFlag none).clear = runFlag ∧
    (withGuard raises true none [AtexitOp.register f a k] none st).2.1
      = [⟨f, a, k⟩] ∧
    (withGuard raises true none [AtexitOp.register f a k] none st).2.2
      = none ∧
    readAll (withGuard raises true none [AtexitOp.register f a k] none st).1
      = readAll st := by
  have hexc : (withGuard raises true none [AtexitOp.register f a k] none
      st).2.2 = none := by
    simp only [withGuard]
    rw [guardExit_suppress, guardExit_err]
    simp [guardEnter, restore_atexit.mkGuard, _clear_exithandlers,
      atexit_clear, applyOps, applyOp, atexit_register,
      atexit_run_exitfuncs, escapedExc, h]
  refine ⟨rfl, ?_, hexc, ?_⟩
  · rw [withGuard_trace]
    simp [applyOps, applyOp, readAll_register, readAll_nil]
  · apply withGuard_none_restore
    intro e
    rw [hexc]
    simp

/-- Witness for C4 at a concrete registry, handler and arguments. -/
theorem clear_defaults_to_run_witness :
    (restore_atexit.mkGuard true none).clear = true ∧
    (withGuard (fun _ => false) true none
        [AtexitOp.register 1 [2] [("x", 3)]] none
        [{ func := 0, args := [], kwargs := none }]).2.1
      = [⟨1, [2], [("x", 3)]⟩] ∧
    (withGuard (fun _ => false) true none
        [AtexitOp.register 1 [2] [("x", 3)]] none
        [{ func := 0, args := [], kwargs := none }]).2.2
      = none ∧
    readAll (withGuard (fun _ => false) true none
        [AtexitOp.register 1 [2] [("x", 3)]] none
        [{ func := 0, args := [], kwargs := none }]).1
      = readAll [{ func := 0, args := [], kwargs := none }] :=
  clear_defaults_to_run (fun _ => false) true
    [{ func := 0, args := [], kwargs := none }] 1 [2] [("x", 3)] rfl

/-- Claim C5: nested guards compose.  With handlers `a` and `b` registered
before any guard, entering guard `G1`, registering `c`, then entering
guard `G2` with `clear=True` leaves the registry empty inside `G2`'s
scope; exiting `G2` restores `[a, b, c]`; exiting `G1` restores
`[a, b]`. -/
theorem nesting_composes (a b c : Callback) :
    (nestedScenario a b c).1 = [] ∧
    readAll (nestedScenario a b c).2.1 = [a, b, c] ∧
    readAll (nestedScenario a b c).2.2 = [a, b] := by
  refine ⟨rfl, ?_, ?_⟩ <;>
    simp [nestedScenario, guardEnter, guardExit, restore_atexit.mkGuard,
      _clear_exithandlers, atexit_clear, readAll_set, readAll_register,
      readAll_nil]

/-- Claim C6: the read-all primitive of the opaque-struct representation
raises `RuntimeError` immediately when the atexit module's internal state
block is null, and otherwise returns the handler list without raising; no
fallback read is attempted. -/
theorem get_exithandlers_null_check :
    (∃ msg, (_get_exithandlers none).1 = Except.error msg) ∧
    ∀ st : AtexitState,
      (_get_exithandlers (some st)).1 = Except.ok (readAll st) :=
  ⟨⟨"atexit module state missing or corrupt", rfl⟩, fun _ => rfl⟩

/-- Claim C7: the read-all primitive has no side effect on the live
registry — the state after the call is the state before it — and calling
it twice in succession with no intervening registration returns equal
results both times. -/
theorem get_exithandlers_no_side_effect (s : Option AtexitState) :
    (_get_exithandlers s).2 = s ∧
    (_get_exithandlers ((_get_exithandlers s).2)).1 =
      (_get_exithandlers s).1 := by
  cases s <;> exact ⟨rfl, rfl⟩

/-- Claim C8: after clear-all, read-all returns the empty sequence,
whatever the prior contents; and clear-all is the same operation as
replace-all applied to the empty sequence. -/
theorem clear_exithandlers_empties (st : AtexitState) :
    (_get_exithandlers (some (_clear_exithandlers st))).1 = Except.ok [] ∧
    _clear_exithandlers st = _set_exithandlers st [] :=
  ⟨rfl, rfl⟩

/-- Claim C9: the guard never suppresses an exception raised inside its
scope (`__exit__` returns `None`): when the body raises and no atexit
callback fails, that same exception propagates to the code surrounding
the scope, and it does so after the restore step — the registry reads
back as the entry snapshot. -/
theorem body_exception_propagates (raises : Nat → Bool) (run : Bool)
    (clear : Option Bool) (ops : List AtexitOp) (st : AtexitState)
    (u : Nat) (h : ∀ f, raises f = false) :
    (withGuard raises run clear ops (some u) st).2.2 =
      some (Exc.bodyError u) ∧
    readAll (withGuard raises run clear ops (some u) st).1 = readAll st := by
  have hexit : ∀ (g : restore_atexit) (st2 : AtexitState),
      (guardExit raises g st2).2.2.1 = none := by
    intro g st2
    rw [guardExit_err, run_exitfuncs_no_error raises st2 h]
    split <;> rfl
  constructor
  · simp only [withGuard]
    rw [guardExit_suppress, hexit]
    simp [escapedExc]
  · apply withGuard_none_restore
    intro e
    simp only [withGuard]
    rw [guardExit_suppress, hexit]
    simp [escapedExc]

/-- Witness for C9: a body exception (code 5) escapes a run=True guard
over a one-handler registry, and the registry reads back as the entry
snapshot. -/
theorem body_exception_propagates_witness :
    (withGuard (fun _ => false) true none [] (some 5)
        [{ func := 0, args := [], kwargs := none }]).2.2
      = some (Exc.bodyError 5) ∧
    readAll (withGuard (fun _ => false) true none [] (some 5)
        [{ func := 0, args := [], kwargs := none }]).1
      = readAll [{ func := 0, args := [], kwargs := none }] :=
  body_exception_propagates (fun _ => false) true none []
    [{ func := 0, args := [], kwargs := none }] 5 (fun _ => rfl)

/-- Claim C10: read-then-write round trip is the identity on observable
registry contents: for every registry state, read-all succeeds with some
handler list (null keyword mappings normalised to empty mappings), and
after replace-all with that list, read-all returns that same list, in the
same order. -/
theorem get_set_roundtrip (st : AtexitState) :
    ∃ hs, (_get_exithandlers (some st)).1 = Except.ok hs ∧
      (_get_exithandlers (some (_set_exithandlers st hs))).1
        = Except.ok hs := by
  refine ⟨readAll st, rfl, ?_⟩
  show Except.ok (readAll (_set_exithandlers st (readAll st)))
    = Except.ok (readAll st)
  rw [readAll_set]

end SageAtexit
